import Mathlib

/-!
Verification of the autonomous_ai_BCNOFNe_system repository.

Shallow embedding of the Python modules that the checked claims concern:
billing_guard.py, ship_mode.py, task_scheduler.py, health_monitor.py,
agent_core.py, line_bot.py, storage_manager.py, audio/audio_manager.py and
executor.py.  Machine-level details that belong to the Python standard
library (regular-expression search, shlex splitting, filesystem path
resolution, glob matching) are taken as explicit function parameters of the
model; everything else is translated directly from the source.

Times are modelled as rationals (Python time.time / datetime arithmetic),
costs as rationals (Python floats used only through order comparisons).
-/

namespace PyStr

/-- Model of the Python expression (needle in hay) for strings: scan every
suffix of the haystack for the needle as a prefix. -/
def isSubstrAux : List Char → List Char → Bool
  | needle, [] => needle.isEmpty
  | needle, c :: t => List.isPrefixOf needle (c :: t) || isSubstrAux needle t

/-- Python (needle in hay) on strings. -/
def pyInStr (needle hay : String) : Bool :=
  isSubstrAux needle.data hay.data

/-- Python str.startswith. -/
def pyStartsWith (s pre : String) : Bool :=
  List.isPrefixOf pre.data s.data

/-- Python str.endswith. -/
def pyEndsWith (s suf : String) : Bool :=
  List.isSuffixOf suf.data s.data

/-- Python str.strip(): drop whitespace from both ends. -/
def pyStrip (s : String) : String :=
  ⟨((s.data.dropWhile Char.isWhitespace).reverse.dropWhile Char.isWhitespace).reverse⟩

/-- Python len() on a string: number of code points. -/
def pyLen (s : String) : Nat := s.data.length

end PyStr

namespace BillingGuard

/-- Thresholds dictionary of billing_guard.py; the alert key is present only
on special days, hence an Option. -/
structure Thresholds where
  warning : Rat
  alert : Option Rat
  stop : Rat
deriving DecidableEq, Repr

/-- NORMAL_DAY_THRESHOLDS of billing_guard.py. -/
def NORMAL_DAY_THRESHOLDS : Thresholds := ⟨200, none, 300⟩

/-- SPECIAL_DAY_THRESHOLDS of billing_guard.py. -/
def SPECIAL_DAY_THRESHOLDS : Thresholds := ⟨500, some 900, 1000⟩

/-- SPECIAL_DAY_CYCLE of billing_guard.py. -/
def SPECIAL_DAY_CYCLE : Nat := 6

/-- BillingGuard.is_special_day on a given day count. -/
def is_special_day (days : Nat) : Bool :=
  days == 0 || days % SPECIAL_DAY_CYCLE == 0

/-- BillingGuard.get_thresholds as a function of the special-day flag. -/
def get_thresholds (is_special : Bool) : Thresholds :=
  if is_special then SPECIAL_DAY_THRESHOLDS else NORMAL_DAY_THRESHOLDS

/-- Warning record returned by BillingGuard.check_threshold (level plus the
numeric fields; the fixed message strings are omitted). -/
structure ThresholdAlert where
  level : String
  threshold : Rat
  today_cost : Rat
  special : Bool
deriving DecidableEq, Repr

/-- BillingGuard.check_threshold as a function of today's cost and the
special-day flag: stop check first, then the special-day alert check, then
the warning check, else None. -/
def check_threshold (today_cost : Rat) (is_special : Bool) : Option ThresholdAlert :=
  let th := get_thresholds is_special
  if th.stop ≤ today_cost then
    some ⟨"stop", th.stop, today_cost, is_special⟩
  else if is_special = true ∧ th.alert.isSome = true ∧ th.alert.getD 0 ≤ today_cost then
    some ⟨"alert", th.alert.getD 0, today_cost, is_special⟩
  else if th.warning ≤ today_cost then
    some ⟨"warning", th.warning, today_cost, is_special⟩
  else
    none

/-- Level of an optional threshold alert. -/
def levelOf (r : Option ThresholdAlert) : Option String :=
  r.map ThresholdAlert.level

end BillingGuard

namespace ShipMode

/-- Per-mode configuration record from ship_mode.py MODES. -/
structure ModeInfo where
  name : String
  icon : String
  desc : String
  iteration_interval : Nat
  line_notify : String
  autonomous_tasks : Bool
  bias : String
deriving DecidableEq, Repr

/-- MODES dictionary of ship_mode.py. -/
def MODES : List (String × ModeInfo) :=
  [ ("autonomous", ⟨"自律航海", "⛵", "自律思考・整理・学習・保守", 30, "minimal", true, "system"⟩),
    ("user_first", ⟨"入港待機", "🏠", "ユーザー対話・支援優先", 10, "responsive", false, "user"⟩),
    ("maintenance", ⟨"ドック入り", "🔧", "保守・メンテナンス専用", 60, "status", true, "maintenance"⟩),
    ("power_save", ⟨"停泊", "🌙", "省電力・最小稼働", 300, "critical", false, "none"⟩),
    ("safe", ⟨"救難信号", "🆘", "安全モード・最小機能", 60, "all", false, "safety"⟩) ]

/-- Dictionary lookup self.MODES.get(mode) / self.MODES[mode]. -/
def lookupMode (m : String) : Option ModeInfo :=
  (MODES.find? (fun p => p.1 == m)).map Prod.snd

/-- One line of the mode-history JSONL written by ShipMode._record_history. -/
structure HistoryEntry where
  from_mode : String
  to_mode : String
  reason : String
  source : String
  timestamp : Nat
deriving DecidableEq, Repr

/-- Mutable state of a ShipMode object, together with the history file it
appends to.  ISO timestamps are modelled as naturals (their order agrees). -/
structure ShipState where
  current_mode : String
  mode_since : Nat
  override_active : Bool
  override_until : Option Nat
  history : List HistoryEntry
deriving DecidableEq, Repr

/-- Result dictionary of ShipMode.switch; keys absent from a given return
site are modelled as none. -/
structure SwitchResult where
  success : Bool
  old_mode : Option String
  new_mode : Option String
  old_name : Option String
  new_name : Option String
  reason : Option String
  source : Option String
  message : Option String
deriving DecidableEq, Repr

/-- ShipMode.switch.  The Except.error case models the uncaught KeyError
raised when the stored current mode is itself unknown (self.MODES[old_mode]
in the success path); every claim below stays in the Except.ok cases. -/
def switch (st : ShipState) (mode reason source : String) (now : Nat) :
    ShipState × Except String SwitchResult :=
  match lookupMode mode with
  | none => (st, .ok ⟨false, none, none, none, none, none, none,
      some ("不明なモード: " ++ mode)⟩)
  | some new_info =>
    let old_mode := st.current_mode
    if old_mode = mode then
      (st, .ok ⟨true, some old_mode, some mode, none, none, none, none,
        some "既に同じモードです"⟩)
    else
      -- while a manual override is active, calendar-driven switches are ignored
      if source = "calendar" ∧ st.override_active = true ∧
          (match st.override_until with
           | some u => decide (now < u)
           | none => false) = true then
        (st, .ok ⟨false, none, none, none, none, none, none,
          some "手動オーバーライド中（自動切替を無視）"⟩)
      else
        let st1 : ShipState :=
          if source = "calendar" ∧ st.override_active = true then
            { st with override_active := false, override_until := none }
          else st
        let st2 : ShipState :=
          { st1 with
              current_mode := mode,
              mode_since := now,
              history := st1.history ++ [⟨old_mode, mode, reason, source, now⟩] }
        match lookupMode old_mode with
        | none => (st2, .error "KeyError")
        | some old_info =>
          (st2, .ok ⟨true, some old_mode, some mode,
            some (old_info.icon ++ " " ++ old_info.name),
            some (new_info.icon ++ " " ++ new_info.name),
            some reason, some source, none⟩)

end ShipMode

namespace TaskScheduler

/-- Outcome of calling a registered task function: a normal return value or a
raised exception (both carried as strings). -/
inductive FuncBehavior
  | returns (v : String)
  | raises (e : String)
deriving DecidableEq, Repr

/-- PeriodicTask of task_scheduler.py.  The func field carries the outcome a
call would produce; condition carries the boolean a set condition() would
return (none when no condition was registered). -/
structure PeriodicTask where
  name : String
  func : FuncBehavior
  interval_sec : Rat
  condition : Option Bool
  run_in_modes : Option (List String)
  last_run : Rat
  run_count : Nat
  last_result : Option String
deriving DecidableEq, Repr

/-- PeriodicTask.is_due: time.time() - last_run is at least interval_sec. -/
def is_due (now : Rat) (t : PeriodicTask) : Bool :=
  decide (t.interval_sec ≤ now - t.last_run)

/-- PeriodicTask.should_run.  Python truthiness: an empty or absent
run_in_modes list skips the mode check, an absent condition skips the
condition check. -/
def should_run (now : Rat) (mode : String) (t : PeriodicTask) : Bool :=
  if !(is_due now t) then false
  else if (match t.run_in_modes with
           | some ms => !ms.isEmpty && !(ms.contains mode)
           | none => false) then false
  else if (match t.condition with
           | some b => !b
           | none => false) then false
  else true

/-- Per-task record appended to the results list of run_due_tasks. -/
structure RunRecord where
  name : String
  success : Bool
  result : Option String
  error : Option String
deriving DecidableEq, Repr

/-- State update applied to a task that run_due_tasks runs: on a normal
return last_run, run_count and last_result are updated; in the except
branch only last_run is set (run_count and last_result are left alone). -/
def runUpdate (now : Rat) (t : PeriodicTask) : PeriodicTask :=
  match t.func with
  | .returns v =>
    { t with
        last_run := now,
        run_count := t.run_count + 1,
        last_result := some v }
  | .raises _ => { t with last_run := now }

/-- Record appended to the results list for a task that run_due_tasks
runs. -/
def runRecord (t : PeriodicTask) : RunRecord :=
  match t.func with
  | .returns v => ⟨t.name, true, some v, none⟩
  | .raises e => ⟨t.name, false, none, some e⟩

/-- TaskScheduler.run_due_tasks: returns the updated task list and the
per-task records of the tasks it ran. -/
def run_due_tasks (now : Rat) (mode : String) :
    List PeriodicTask → List PeriodicTask × List RunRecord
  | [] => ([], [])
  | t :: ts =>
    let rest := run_due_tasks now mode ts
    if should_run now mode t then
      (runUpdate now t :: rest.1, runRecord t :: rest.2)
    else (t :: rest.1, rest.2)

/-- Concrete due task whose function returns normally (used by a witness). -/
def demoTaskOk : PeriodicTask := ⟨"a", .returns "ok", 5, none, none, 0, 2, none⟩

/-- Concrete due task whose function raises (used by a witness). -/
def demoTaskErr : PeriodicTask := ⟨"b", .raises "boom", 5, none, none, 0, 7, none⟩

end TaskScheduler

namespace HealthMonitor

/-- HealthMonitor.get_overall_status over the status strings of the last
results list. -/
def get_overall_status (statuses : List String) : String :=
  if statuses = [] then "UNKNOWN"
  else if "CRITICAL" ∈ statuses then "CRITICAL"
  else if "WARN" ∈ statuses then "WARN"
  else "OK"

/-- Numeric rank of a status under the spec order OK < WARN < CRITICAL
(UNKNOWN ranks with OK, matching the spec clause that the overall status is
OK when no component is WARN or CRITICAL). -/
def statusRank (s : String) : Nat :=
  if s = "CRITICAL" then 2 else if s = "WARN" then 1 else 0

/-- Status with a given rank. -/
def rankToStatus (n : Nat) : String :=
  if n = 2 then "CRITICAL" else if n = 1 then "WARN" else "OK"

/-- Spec-side definition of the overall status, written from the spec words:
the maximum component status under the order OK < WARN < CRITICAL. -/
def specOverall (statuses : List String) : String :=
  rankToStatus ((statuses.map statusRank).foldr max 0)

end HealthMonitor

namespace AgentCore

/-- The fields of AutonomousAgent that update_goal and the next_goal block
of execute_action read or write.  The goal-history JSONL is the list of
(old_goal, new_goal) pairs appended on user updates. -/
structure AgentState where
  current_goal : String
  user_goal_active : Bool
  last_commands : List String
  last_results : List String
  last_thinking : String
  goal_history : List (String × String)
deriving DecidableEq, Repr

/-- AutonomousAgent.update_goal. -/
def update_goal (st : AgentState) (new_goal : String) (source : String) : AgentState :=
  if source = "user" then
    { st with
        goal_history := st.goal_history ++ [(st.current_goal, new_goal)],
        last_commands := [],
        last_results := [],
        last_thinking := "",
        user_goal_active := true,
        current_goal := new_goal }
  else
    { st with current_goal := new_goal }

/-- Completion keywords checked against the say field in execute_action. -/
def COMPLETION_KEYWORDS : List String :=
  ["完了", "達成", "終了", "完成", "done", "finished"]

/-- Test whether the say text contains one of the completion keywords. -/
def hasCompletionMarker (say : String) : Bool :=
  COMPLETION_KEYWORDS.any (fun kw => PyStr.pyInStr kw say)

/-- The next_goal block of AutonomousAgent.execute_action (the only part of
execute_action that touches current_goal or the user-goal flag). -/
def update_goal_from_action (st : AgentState) (next_goal say : String) : AgentState :=
  if next_goal ≠ "" then
    if st.user_goal_active then
      if hasCompletionMarker say then
        { st with user_goal_active := false, current_goal := next_goal }
      else st
    else
      { st with current_goal := next_goal }
  else st

end AgentCore

namespace LineBot

/-- Match of the regex fragment backslash-s-star followed by a question mark
class: skip whitespace, then require a half- or full-width question mark. -/
def wsThenQ : List Char → Bool
  | [] => false
  | c :: t =>
    if c == '?' || c == '？' then true
    else if c.isWhitespace then wsThenQ t
    else false

/-- Match of the possibility-question regex at the head of the suffix l:
one of ある/ない/できる followed by optional whitespace and a question mark. -/
def possQAt (l : List Char) : Bool :=
  ["ある", "ない", "できる"].any
    (fun w => List.isPrefixOf w.data l && wsThenQ (l.drop w.data.length))

/-- Search of the possibility-question regex anywhere in the text. -/
def possQScan : List Char → Bool
  | [] => false
  | c :: t => possQAt (c :: t) || possQScan t

/-- Disjunction of the query_patterns regex list of
LineNotifier._classify_input, applied to the stripped text. -/
def query_patterns_hit (t : String) : Bool :=
  (t.data.any (fun c => c == '?' || c == '？'))
  || PyStr.pyInStr "教えて" t || PyStr.pyInStr "おしえて" t
  || PyStr.pyInStr "天気" t || PyStr.pyInStr "気温" t || PyStr.pyInStr "温度" t
  || PyStr.pyStartsWith t "何" || PyStr.pyStartsWith t "なに" || PyStr.pyStartsWith t "なん"
  || PyStr.pyStartsWith t "いつ" || PyStr.pyStartsWith t "どこ"
  || PyStr.pyStartsWith t "誰" || PyStr.pyStartsWith t "だれ"
  || PyStr.pyInStr "調べて" t || PyStr.pyInStr "しらべて" t
  || PyStr.pyInStr "どう" t || PyStr.pyInStr "どんな" t || PyStr.pyInStr "どれ" t
  || possQScan t.data
  || PyStr.pyInStr "とは" t || PyStr.pyInStr "って何" t || PyStr.pyInStr "ってなに" t
  || PyStr.pyInStr "意味" t || PyStr.pyInStr "違い" t
  || PyStr.pyInStr "わかる" t || PyStr.pyInStr "知って" t || PyStr.pyInStr "しって" t

/-- Match of the imperative-ending regex (して|しろ|せよ|する) anchored at
the end of the text. -/
def imperativeEnding (t : String) : Bool :=
  PyStr.pyEndsWith t "して" || PyStr.pyEndsWith t "しろ"
  || PyStr.pyEndsWith t "せよ" || PyStr.pyEndsWith t "する"

/-- LineNotifier._classify_input. -/
def classify_input (text : String) : String :=
  let t := PyStr.pyStrip text
  if query_patterns_hit t then "query"
  else if PyStr.pyLen t ≤ 10 && !(imperativeEnding t) then "query"
  else "goal"

end LineBot

namespace StorageManager

/-- Filesystem entry seen by the rglob walk of the fast (SSD) tier: its
path, whether it is a regular file, and its last-access time. -/
structure FsEntry where
  path : String
  is_file : Bool
  atime : Rat
deriving DecidableEq, Repr

/-- Default exclude_patterns of storage_manager.py. -/
def DEFAULT_EXCLUDE_PATTERNS : List String :=
  ["*.log", "*.tmp", ".git/*", "__pycache__/*"]

/-- StorageManager._should_exclude.  The glob matcher Path.match of the
standard library is the explicit parameter matchFn. -/
def should_exclude (matchFn : String → String → Bool)
    (exclude_patterns : List String) (p : String) : Bool :=
  exclude_patterns.any (fun pat => matchFn p pat)

/-- StorageManager.find_old_files over the walked entries: keep regular
files that are not excluded and whose atime is strictly below the cutoff
now - days. -/
def find_old_files (matchFn : String → String → Bool)
    (exclude_patterns : List String) (now days : Rat)
    (entries : List FsEntry) : List String :=
  (entries.filter (fun e =>
    e.is_file && !(should_exclude matchFn exclude_patterns e.path)
    && decide (e.atime < now - days))).map FsEntry.path

end StorageManager

namespace AudioManager

/-- Priority enum of audio_manager.py. -/
inductive Priority
  | talk
  | emergency
  | notification
  | monologue
deriving DecidableEq, Repr

/-- Numeric value of a priority (lower value = higher priority). -/
def Priority.value : Priority → Nat
  | .talk => 1
  | .emergency => 2
  | .notification => 3
  | .monologue => 4

/-- Entry of the speak PriorityQueue: the tuple
(priority.value, time.time(), SpeakRequest) pushed by AudioManager.speak,
with the request represented by its text. -/
structure QEntry where
  prio : Nat
  ts : Rat
  text : String
deriving DecidableEq, Repr

/-- Lexicographic order on the (priority, enqueued_at) key, non-strict. -/
def keyLe (a b : QEntry) : Bool :=
  a.prio < b.prio || (a.prio == b.prio && decide (a.ts ≤ b.ts))

/-- Lexicographic order on the (priority, enqueued_at) key, strict. -/
def keyLt (a b : QEntry) : Bool :=
  a.prio < b.prio || (a.prio == b.prio && decide (a.ts < b.ts))

/-- AudioManager.speak: put (priority.value, time.time(), request) into the
queue, with now the enqueue time. -/
def speak (q : List QEntry) (text : String) (p : Priority) (now : Rat) : List QEntry :=
  q ++ [⟨p.value, now, text⟩]

/-- Selection of the smallest entry (the one PriorityQueue.get returns):
returns the minimum under keyLe together with the remaining entries. -/
def selMin : QEntry → List QEntry → QEntry × List QEntry
  | m, [] => (m, [])
  | m, x :: xs =>
    if keyLe m x then
      let r := selMin m xs
      (r.1, x :: r.2)
    else
      let r := selMin x xs
      (r.1, m :: r.2)

/-- Repeated PriorityQueue.get with enough fuel: the order in which the
speak worker dequeues and speaks the queued requests. -/
def drainFuel : Nat → List QEntry → List QEntry
  | 0, _ => []
  | _ + 1, [] => []
  | n + 1, x :: xs =>
    let r := selMin x xs
    r.1 :: drainFuel n r.2

/-- Dequeue order of the whole queue. -/
def drain (q : List QEntry) : List QEntry :=
  drainFuel q.length q

end AudioManager

namespace Executor

/-- ALLOWED_ROOTS of executor.py. -/
def ALLOWED_ROOTS : List String :=
  ["/home/pi/autonomous_ai", "/home/pi/autonomous_ai_BCNOFNe_system", "/mnt/hdd"]

/-- ALLOWED_COMMANDS of executor.py. -/
def ALLOWED_COMMANDS : List String :=
  ["ls", "cat", "echo", "pwd", "mkdir", "touch",
   "grep", "find", "wc", "head", "tail", "sort", "uniq",
   "date", "whoami", "hostname", "uname", "df", "du",
   "ps", "top", "free", "uptime", "which", "whereis",
   "git", "python3", "pip3", "node", "npm",
   "systemctl", "journalctl",
   "cp", "mv", "rm",
   "chmod", "chown"]

/-- PATH_SENSITIVE of executor.py. -/
def PATH_SENSITIVE : List String :=
  ["cp", "mv", "rm", "chmod", "chown", "touch", "mkdir", "cat", "grep",
   "find", "ls", "head", "tail"]

/-- ALLOWED_SYSTEMCTL_ACTIONS of executor.py. -/
def ALLOWED_SYSTEMCTL_ACTIONS : List String :=
  ["status", "restart", "start", "stop", "is-active", "is-enabled", "daemon-reload"]

/-- Shell operators rejected by is_safe_command. -/
def SHELL_OPS : List String := [";", "&&", "||", "|", "`", "$("]

/-- Standard-library primitives used by the executor, taken as parameters of
the model: dangerousHit is the outcome of re.search over DANGEROUS_PATTERNS
on the raw command, shlexSplit is shlex.split (none models a raised
ValueError), resolvePath is Path.expanduser().resolve() (none models a
raised exception; the allow-list roots contain no tilde, so the same
resolver serves Path(root).resolve()). -/
structure PyLib where
  dangerousHit : String → Bool
  shlexSplit : String → Option (List String)
  resolvePath : String → Option String

/-- Python pathlib Path(s).name: final component, ignoring trailing
slashes. -/
def pyName (s : String) : String :=
  let trimmed := ((s.data.reverse.dropWhile (fun c => c == '/'))).reverse
  ⟨(trimmed.reverse.takeWhile (fun c => !(c == '/'))).reverse⟩

/-- Match of the URL regex: one or more ASCII letters followed by the
scheme separator. -/
def isURL (a : String) : Bool :=
  let alpha := a.data.takeWhile Char.isAlpha
  !alpha.isEmpty && List.isPrefixOf "://".data (a.data.drop alpha.length)

/-- CommandExecutor._extract_pathlike_args: skip the command word, options,
URLs and bare .service unit names; keep arguments containing a slash or
starting with a dot or a tilde. -/
def extract_pathlike_args (args : List String) : List String :=
  (args.drop 1).filter (fun a =>
    !(a == "") && !(PyStr.pyStartsWith a "-") && !(isURL a)
    && !(PyStr.pyEndsWith a ".service" && !(PyStr.pyInStr "/" a))
    && (PyStr.pyInStr "/" a || PyStr.pyStartsWith a "." || PyStr.pyStartsWith a "~"))

/-- CommandExecutor._is_under_allowed_roots. -/
def is_under_allowed_roots (lib : PyLib) (p : String) : Bool :=
  match lib.resolvePath p with
  | none => false
  | some rp =>
    ALLOWED_ROOTS.any (fun root =>
      match lib.resolvePath root with
      | none => false
      | some rr => rp == rr || PyStr.pyStartsWith rp (rr ++ "/"))

/-- Emptiness check of is_safe_command: not command or not command.strip(). -/
def empty_command (command : String) : Bool :=
  command == "" || PyStr.pyStrip command == ""

/-- Shell-operator check of is_safe_command. -/
def has_shell_ops (command : String) : Bool :=
  SHELL_OPS.any (fun x => PyStr.pyInStr x command)

/-- Check of is_safe_command: systemctl called without a subcommand. -/
def systemctl_arity_bad (base : String) (args : List String) : Bool :=
  base == "systemctl" && decide (args.length < 2)

/-- Check of is_safe_command: systemctl subcommand not in the allowed set. -/
def systemctl_action_bad (base : String) (args : List String) : Bool :=
  base == "systemctl" && !(ALLOWED_SYSTEMCTL_ACTIONS.contains (args.getD 1 ""))

/-- Check of is_safe_command: a path-sensitive command with some path-like
argument outside every allow-list root. -/
def path_violation (lib : PyLib) (base : String) (args : List String) : Bool :=
  PATH_SENSITIVE.contains base
    && (extract_pathlike_args args).any (fun p => !(is_under_allowed_roots lib p))

/-- Extra rm check of is_safe_command: root-like or parent-like targets. -/
def rm_dangerous (base : String) (args : List String) : Bool :=
  base == "rm"
    && (args.drop 1).any (fun a => ["/", "/*", "..", "../", "~", "~/", ".*"].contains a)

/-- CommandExecutor.is_safe_command: the full chain of checks, in source
order, returning (is_safe, error message, parsed args). -/
def is_safe_command (lib : PyLib) (command : String) : Bool × String × List String :=
  if empty_command command then (false, "空のコマンドです", [])
  else if lib.dangerousHit command then (false, "危険パターン検出", [])
  else if has_shell_ops command then (false, "シェル演算子は禁止です", [])
  else
    match lib.shlexSplit command with
    | none => (false, "コマンドの解析に失敗", [])
    | some args =>
      if args.isEmpty then (false, "空のコマンドです", [])
      else
        let base := pyName (args.headD "")
        if base = "sudo" then (false, "sudoは禁止です", [])
        else if !(ALLOWED_COMMANDS.contains base) then
          (false, "許可されていないコマンド: " ++ base, [])
        else if systemctl_arity_bad base args then
          (false, "systemctl はサブコマンドが必要です", [])
        else if systemctl_action_bad base args then
          (false, "許可されていない systemctl 操作", [])
        else if path_violation lib base args then
          (false, "許可ディレクトリ外のパス操作は禁止", [])
        else if rm_dangerous base args then
          (false, "危険な rm 対象", [])
        else (true, "", args)

/-- Outcome of the one subprocess.run call of CommandExecutor.execute,
taken as a parameter of the model. -/
inductive ProcOutcome
  | completed (returncode : Int) (stdout stderr : String)
  | timedOut
  | failed (err : String)

/-- Result dictionary of CommandExecutor.execute. -/
structure ExecResult where
  success : Bool
  stdout : String
  stderr : String
  returncode : Int
  error : Option String
deriving DecidableEq, Repr

/-- One record appended to the command audit JSONL. -/
structure AuditRecord where
  command : String
  args : Option (List String)
  allowed : Bool
  returncode : Option Int
  reason : Option String
  error : Option String
deriving DecidableEq, Repr

/-- CommandExecutor._truncate. -/
def truncate (max_output_size : Nat) (s : String) : String :=
  if PyStr.pyLen s ≤ max_output_size then s
  else ⟨s.data.take max_output_size⟩ ++
    "\n... (出力が" ++ toString max_output_size ++ "文字を超えたため切り詰め)"

/-- CommandExecutor.execute.  Besides the result dictionary the model
returns the audit records appended and the argv of every child process
spawned (the subprocess.run call), so that the no-spawn property is a
statement of the model. -/
def execute (lib : PyLib) (proc : List String → ProcOutcome)
    (timeout max_output_size : Nat) (command : String) :
    ExecResult × List AuditRecord × List (List String) :=
  let chk := is_safe_command lib command
  if chk.1 = false then
    (⟨false, "", "", -1, some ("安全性チェック失敗: " ++ chk.2.1)⟩,
     [⟨command, none, false, none, some chk.2.1, none⟩], [])
  else
    let args := chk.2.2
    match proc args with
    | .completed rc out err =>
      (⟨rc == 0, truncate max_output_size out, truncate max_output_size err, rc, none⟩,
       [⟨command, some args, true, some rc, none, none⟩], [args])
    | .timedOut =>
      (⟨false, "", "", -1,
        some ("タイムアウト: コマンドが" ++ toString timeout ++ "秒以内に完了しませんでした")⟩,
       [⟨command, some args, true, some (-1), none, some "timeout"⟩], [args])
    | .failed e =>
      (⟨false, "", "", -1, some ("実行エラー: " ++ e)⟩,
       [⟨command, some args, true, some (-1), none, some e⟩], [args])

/-- Resolver used in the concrete witness: the value of
Path.expanduser().resolve() at the inputs the witness touches (the spec
example path resolves to /etc, each allow-list root to itself). -/
def demoResolve : String → Option String := fun s =>
  if s = "/home/pi/autonomous_ai/../etc" then some "/etc"
  else if s = "/home/pi/autonomous_ai" then some "/home/pi/autonomous_ai"
  else if s = "/home/pi/autonomous_ai_BCNOFNe_system" then
    some "/home/pi/autonomous_ai_BCNOFNe_system"
  else if s = "/mnt/hdd" then some "/mnt/hdd"
  else none

/-- shlex.split at the witness command. -/
def demoShlex : String → Option (List String) := fun s =>
  if s = "rm -rf /home/pi/autonomous_ai/../etc" then
    some ["rm", "-rf", "/home/pi/autonomous_ai/../etc"]
  else none

/-- Library model for the witness.  No DANGEROUS_PATTERNS regex matches the
witness command (the word-boundary before -rf requires an adjacent word
character, which a space is not), so dangerousHit is false there. -/
def demoLib : PyLib := ⟨fun _ => false, demoShlex, demoResolve⟩

/-- Subprocess model for the witness (never reached). -/
def demoProc : List String → ProcOutcome := fun _ => .failed "unused"

end Executor

/-!
Theorems.  Each claim Cn of the specification gets one theorem below,
together with a witness at concrete inputs when the theorem has
hypotheses, and a counterexample where the claim as stated fails.
-/

/-- C2: after update_goal(text, source=user) activates the user goal,
executing an LLM action with a non-empty next_goal leaves current_goal
unchanged (still the user text) while the say field contains no completion
keyword; when say does contain a completion keyword, current_goal becomes
the action's next_goal and the user-goal flag is cleared. -/
theorem C2_user_goal_sticky (st : AgentCore.AgentState) (text next_goal say : String)
    (hng : next_goal ≠ "") :
    (AgentCore.hasCompletionMarker say = false →
      (AgentCore.update_goal_from_action
          (AgentCore.update_goal st text "user") next_goal say).current_goal = text ∧
      (AgentCore.update_goal_from_action
          (AgentCore.update_goal st text "user") next_goal say).user_goal_active = true) ∧
    (AgentCore.hasCompletionMarker say = true →
      (AgentCore.update_goal_from_action
          (AgentCore.update_goal st text "user") next_goal say).current_goal = next_goal ∧
      (AgentCore.update_goal_from_action
          (AgentCore.update_goal st text "user") next_goal say).user_goal_active = false) := by
  constructor <;> intro hm <;>
    simp [AgentCore.update_goal, AgentCore.update_goal_from_action, hng, hm]

/-- Witness for C2 at a concrete state, user goal and action. -/
theorem C2_user_goal_sticky_witness :
    ("別のこと" : String) ≠ "" ∧
    ((AgentCore.hasCompletionMarker "引き続き取り組みます" = false →
      (AgentCore.update_goal_from_action
          (AgentCore.update_goal ⟨"初期目標", false, [], [], "", []⟩ "部屋の記録を整理" "user")
          "別のこと" "引き続き取り組みます").current_goal = "部屋の記録を整理" ∧
      (AgentCore.update_goal_from_action
          (AgentCore.update_goal ⟨"初期目標", false, [], [], "", []⟩ "部屋の記録を整理" "user")
          "別のこと" "引き続き取り組みます").user_goal_active = true) ∧
    (AgentCore.hasCompletionMarker "引き続き取り組みます" = true →
      (AgentCore.update_goal_from_action
          (AgentCore.update_goal ⟨"初期目標", false, [], [], "", []⟩ "部屋の記録を整理" "user")
          "別のこと" "引き続き取り組みます").current_goal = "別のこと" ∧
      (AgentCore.update_goal_from_action
          (AgentCore.update_goal ⟨"初期目標", false, [], [], "", []⟩ "部屋の記録を整理" "user")
          "別のこと" "引き続き取り組みます").user_goal_active = false)) :=
  ⟨by decide,
   C2_user_goal_sticky ⟨"初期目標", false, [], [], "", []⟩ "部屋の記録を整理"
     "別のこと" "引き続き取り組みます" (by decide)⟩

/-- C3: on a special day (day index divisible by 6, day 0 included) the
cost check returns stop exactly when today's cost reaches 1000, otherwise
alert exactly when it reaches 900, otherwise warning exactly when it
reaches 500, and nothing below 500. -/
theorem C3_special_day_thresholds (days : Nat) (cost : Rat) (h : days % 6 = 0) :
    BillingGuard.is_special_day days = true ∧
    (BillingGuard.levelOf (BillingGuard.check_threshold cost (BillingGuard.is_special_day days))
        = some "stop" ↔ 1000 ≤ cost) ∧
    (BillingGuard.levelOf (BillingGuard.check_threshold cost (BillingGuard.is_special_day days))
        = some "alert" ↔ 900 ≤ cost ∧ cost < 1000) ∧
    (BillingGuard.levelOf (BillingGuard.check_threshold cost (BillingGuard.is_special_day days))
        = some "warning" ↔ 500 ≤ cost ∧ cost < 900) ∧
    (BillingGuard.levelOf (BillingGuard.check_threshold cost (BillingGuard.is_special_day days))
        = none ↔ cost < 500) := by
  have hs : BillingGuard.is_special_day days = true := by
    simp [BillingGuard.is_special_day, BillingGuard.SPECIAL_DAY_CYCLE, h]
  refine ⟨hs, ?_⟩
  rw [hs]
  simp only [BillingGuard.check_threshold, BillingGuard.get_thresholds, if_true,
    BillingGuard.SPECIAL_DAY_THRESHOLDS, BillingGuard.levelOf]
  by_cases c1 : (1000 : Rat) ≤ cost
  · simp [c1]
    exact ⟨fun _ => by linarith, by linarith⟩
  · by_cases c2 : (900 : Rat) ≤ cost
    · simp [c1, c2]
      exact ⟨by linarith, by linarith⟩
    · by_cases c3 : (500 : Rat) ≤ cost
      · simp [c1, c2, c3]
        linarith
      · simp [c1, c2, c3]
        linarith

/-- Witness for C3 on special day 6 at the boundary cost 501. -/
theorem C3_special_day_thresholds_witness :
    6 % 6 = 0 ∧
    (BillingGuard.is_special_day 6 = true ∧
    (BillingGuard.levelOf (BillingGuard.check_threshold 501 (BillingGuard.is_special_day 6))
        = some "stop" ↔ 1000 ≤ (501 : Rat)) ∧
    (BillingGuard.levelOf (BillingGuard.check_threshold 501 (BillingGuard.is_special_day 6))
        = some "alert" ↔ 900 ≤ (501 : Rat) ∧ (501 : Rat) < 1000) ∧
    (BillingGuard.levelOf (BillingGuard.check_threshold 501 (BillingGuard.is_special_day 6))
        = some "warning" ↔ 500 ≤ (501 : Rat) ∧ (501 : Rat) < 900) ∧
    (BillingGuard.levelOf (BillingGuard.check_threshold 501 (BillingGuard.is_special_day 6))
        = none ↔ (501 : Rat) < 500)) :=
  ⟨by decide, C3_special_day_thresholds 6 501 (by decide)⟩

/-- C4 counterexample: a no-op switch (target equals the current mode) does
not report a refusal; the returned dictionary has success = true (with the
message that the mode is already the same), so the claim that the result
reports a refusal rather than a success is false at this input. -/
theorem C4_noop_reports_success_counterexample :
    (ShipMode.switch ⟨"autonomous", 0, false, none, []⟩ "autonomous" "理由" "user" 5).2 =
      Except.ok ⟨true, some "autonomous", some "autonomous", none, none, none, none,
        some "既に同じモードです"⟩ ∧
    (ShipMode.switch ⟨"autonomous", 0, false, none, []⟩ "autonomous" "理由" "user" 5).1 =
      ⟨"autonomous", 0, false, none, []⟩ := by
  constructor <;> rfl

/-- C4 (amended): when the target equals the current mode and is a defined
mode, switch is a no-op on the state: the mode, since timestamp, override
fields and history are unchanged and nothing is appended; the returned
result has success = true with old_mode = new_mode = target and the
already-same-mode message (the code acknowledges the no-op instead of
reporting a refusal). -/
theorem C4_noop_switch_unchanged (st : ShipMode.ShipState) (target reason source : String)
    (now : Nat)
    (hmode : (ShipMode.lookupMode target).isSome = true)
    (heq : st.current_mode = target) :
    (ShipMode.switch st target reason source now).1 = st ∧
    (ShipMode.switch st target reason source now).2 =
      Except.ok ⟨true, some target, some target, none, none, none, none,
        some "既に同じモードです"⟩ := by
  rcases hm : ShipMode.lookupMode target with _ | info
  · rw [hm] at hmode; simp at hmode
  · constructor <;> simp [ShipMode.switch, hm, heq]

/-- Witness for C4 (amended) at a concrete state in safe mode. -/
theorem C4_noop_switch_unchanged_witness :
    (ShipMode.lookupMode "safe").isSome = true ∧
    (⟨"safe", 3, true, some 10, []⟩ : ShipMode.ShipState).current_mode = "safe" ∧
    ((ShipMode.switch ⟨"safe", 3, true, some 10, []⟩ "safe" "点検" "calendar" 7).1 =
      ⟨"safe", 3, true, some 10, []⟩ ∧
    (ShipMode.switch ⟨"safe", 3, true, some 10, []⟩ "safe" "点検" "calendar" 7).2 =
      Except.ok ⟨true, some "safe", some "safe", none, none, none, none,
        some "既に同じモードです"⟩) :=
  ⟨by decide, rfl,
   C4_noop_switch_unchanged ⟨"safe", 3, true, some 10, []⟩ "safe" "点検" "calendar" 7
     (by decide) rfl⟩

/-- C10: switching to a target that is not a defined mode is rejected with
success = false and the unknown-mode message, the state (mode, since,
override fields) is untouched and nothing is appended to the history. -/
theorem C10_unknown_mode_rejected (st : ShipMode.ShipState) (target reason source : String)
    (now : Nat)
    (h : target ∉ ShipMode.MODES.map Prod.fst) :
    (ShipMode.switch st target reason source now).1 = st ∧
    (ShipMode.switch st target reason source now).2 =
      Except.ok ⟨false, none, none, none, none, none, none,
        some ("不明なモード: " ++ target)⟩ := by
  have hl : ShipMode.lookupMode target = none := by
    simp only [ShipMode.lookupMode, Option.map_eq_none']
    rw [List.find?_eq_none]
    intro x hx
    simp only [beq_iff_eq]
    intro hxe
    exact h (hxe ▸ List.mem_map_of_mem Prod.fst hx)
  constructor <;> simp [ShipMode.switch, hl]

/-- Witness for C10 at the undefined target mode warp. -/
theorem C10_unknown_mode_rejected_witness :
    ("warp" ∉ ShipMode.MODES.map Prod.fst) ∧
    ((ShipMode.switch ⟨"autonomous", 0, false, none, []⟩ "warp" "試験" "user" 9).1 =
      ⟨"autonomous", 0, false, none, []⟩ ∧
    (ShipMode.switch ⟨"autonomous", 0, false, none, []⟩ "warp" "試験" "user" 9).2 =
      Except.ok ⟨false, none, none, none, none, none, none,
        some ("不明なモード: " ++ "warp")⟩) :=
  ⟨by decide,
   C10_unknown_mode_rejected ⟨"autonomous", 0, false, none, []⟩ "warp" "試験" "user" 9
     (by decide)⟩

/-- Helper: a fold of max over a list is bounded by any bound on the
elements. -/
theorem foldrMax_le {l : List Nat} {b : Nat} (h : ∀ x ∈ l, x ≤ b) :
    l.foldr max 0 ≤ b := by
  induction l with
  | nil => exact Nat.zero_le b
  | cons a t ih =>
    simp only [List.foldr_cons]
    exact max_le (h a (by simp)) (ih (fun x hx => h x (by simp [hx])))

/-- Helper: every element is below the fold of max over the list. -/
theorem le_foldrMax {l : List Nat} {x : Nat} (h : x ∈ l) :
    x ≤ l.foldr max 0 := by
  induction l with
  | nil => simp at h
  | cons a t ih =>
    simp only [List.foldr_cons]
    rcases List.mem_cons.1 h with rfl | hmem
    · exact le_max_left _ _
    · exact le_trans (ih hmem) (le_max_right _ _)

/-- C8: for a non-empty results list over the four statuses, the overall
status is the maximum component status under OK < WARN < CRITICAL: it is
CRITICAL exactly when some component is CRITICAL, WARN exactly when none is
CRITICAL and some is WARN, and OK otherwise. -/
theorem C8_overall_status_worst (statuses : List String)
    (hne : statuses ≠ [])
    (hdom : ∀ s ∈ statuses, s = "OK" ∨ s = "WARN" ∨ s = "CRITICAL" ∨ s = "UNKNOWN") :
    HealthMonitor.get_overall_status statuses = HealthMonitor.specOverall statuses ∧
    (HealthMonitor.get_overall_status statuses = "CRITICAL" ↔ "CRITICAL" ∈ statuses) ∧
    (HealthMonitor.get_overall_status statuses = "WARN" ↔
        "CRITICAL" ∉ statuses ∧ "WARN" ∈ statuses) ∧
    (HealthMonitor.get_overall_status statuses = "OK" ↔
        "CRITICAL" ∉ statuses ∧ "WARN" ∉ statuses) := by
  by_cases hc : "CRITICAL" ∈ statuses
  · have hm2 : (statuses.map HealthMonitor.statusRank).foldr max 0 = 2 := by
      apply le_antisymm
      · apply foldrMax_le
        intro x hx
        obtain ⟨s, hs, rfl⟩ := List.mem_map.1 hx
        simp only [HealthMonitor.statusRank]
        split_ifs <;> omega
      · have h2 : HealthMonitor.statusRank "CRITICAL" = 2 := rfl
        exact h2 ▸ le_foldrMax (List.mem_map_of_mem _ hc)
    simp [HealthMonitor.get_overall_status, HealthMonitor.specOverall, hne, hc, hm2,
      HealthMonitor.rankToStatus]
  · by_cases hw : "WARN" ∈ statuses
    · have hm1 : (statuses.map HealthMonitor.statusRank).foldr max 0 = 1 := by
        apply le_antisymm
        · apply foldrMax_le
          intro x hx
          obtain ⟨s, hs, rfl⟩ := List.mem_map.1 hx
          rcases hdom s hs with rfl | rfl | rfl | rfl
          · simp [HealthMonitor.statusRank]
          · simp [HealthMonitor.statusRank]
          · exact absurd hs hc
          · simp [HealthMonitor.statusRank]
        · have h1 : HealthMonitor.statusRank "WARN" = 1 := rfl
          exact h1 ▸ le_foldrMax (List.mem_map_of_mem _ hw)
      simp [HealthMonitor.get_overall_status, HealthMonitor.specOverall, hne, hc, hw, hm1,
        HealthMonitor.rankToStatus]
    · have hm0 : (statuses.map HealthMonitor.statusRank).foldr max 0 = 0 := by
        apply Nat.le_zero.mp
        apply foldrMax_le
        intro x hx
        obtain ⟨s, hs, rfl⟩ := List.mem_map.1 hx
        rcases hdom s hs with rfl | rfl | rfl | rfl
        · simp [HealthMonitor.statusRank]
        · exact absurd hs hw
        · exact absurd hs hc
        · simp [HealthMonitor.statusRank]
      simp [HealthMonitor.get_overall_status, HealthMonitor.specOverall, hne, hc, hw, hm0,
        HealthMonitor.rankToStatus]

/-- Witness for C8 at a concrete mixed results list. -/
theorem C8_overall_status_worst_witness :
    (["UNKNOWN", "WARN", "OK"] : List String) ≠ [] ∧
    (∀ s ∈ (["UNKNOWN", "WARN", "OK"] : List String),
        s = "OK" ∨ s = "WARN" ∨ s = "CRITICAL" ∨ s = "UNKNOWN") ∧
    (HealthMonitor.get_overall_status ["UNKNOWN", "WARN", "OK"] =
        HealthMonitor.specOverall ["UNKNOWN", "WARN", "OK"] ∧
    (HealthMonitor.get_overall_status ["UNKNOWN", "WARN", "OK"] = "CRITICAL" ↔
        "CRITICAL" ∈ (["UNKNOWN", "WARN", "OK"] : List String)) ∧
    (HealthMonitor.get_overall_status ["UNKNOWN", "WARN", "OK"] = "WARN" ↔
        "CRITICAL" ∉ (["UNKNOWN", "WARN", "OK"] : List String) ∧
        "WARN" ∈ (["UNKNOWN", "WARN", "OK"] : List String)) ∧
    (HealthMonitor.get_overall_status ["UNKNOWN", "WARN", "OK"] = "OK" ↔
        "CRITICAL" ∉ (["UNKNOWN", "WARN", "OK"] : List String) ∧
        "WARN" ∉ (["UNKNOWN", "WARN", "OK"] : List String))) :=
  ⟨by decide, by decide,
   C8_overall_status_worst ["UNKNOWN", "WARN", "OK"] (by decide) (by decide)⟩

/-- C7: classification of chat text is a pure function returning only query
or goal; it returns query exactly when the stripped text matches one of the
question patterns or is at most 10 characters long without an imperative
ending; the two spec examples classify as query and goal. -/
theorem C7_classify_input_spec (text : String) :
    (LineBot.classify_input text = "query" ∨ LineBot.classify_input text = "goal") ∧
    (LineBot.classify_input text = "query" ↔
      (LineBot.query_patterns_hit (PyStr.pyStrip text) = true ∨
       (PyStr.pyLen (PyStr.pyStrip text) ≤ 10 ∧
        LineBot.imperativeEnding (PyStr.pyStrip text) = false))) ∧
    LineBot.classify_input "今日の天気は？" = "query" ∧
    LineBot.classify_input "ログを整理して" = "goal" := by
  refine ⟨?_, ?_, by decide, by decide⟩
  · simp only [LineBot.classify_input]
    split_ifs <;> simp
  · simp only [LineBot.classify_input]
    split_ifs with h1 h2
    · simp [h1]
    · simp only [Bool.and_eq_true, decide_eq_true_iff, Bool.not_eq_true'] at h2
      simp [h1, h2]
    · simp only [Bool.and_eq_true, decide_eq_true_iff, Bool.not_eq_true'] at h2
      push_neg at h2
      simp only [h1]
      constructor
      · intro hcon
        exact absurd hcon (by decide)
      · rintro (hcon | ⟨ha, hb⟩)
        · exact absurd hcon (by simp [h1])
        · exact absurd hb (by simpa using h2 ha)

/-- C5 counterexample: a due task whose function raises is run (its record
appears with success = false and its last_run becomes now = 10) but its
run_count is NOT updated (it stays 0), contradicting the claim that
run_count is updated for every task that runs, whether it succeeds or
raises. -/
theorem C5_run_count_not_updated_counterexample :
    TaskScheduler.run_due_tasks 10 "autonomous"
        [⟨"t", TaskScheduler.FuncBehavior.raises "boom", 5, none, none, 0, 0, none⟩] =
      ([⟨"t", TaskScheduler.FuncBehavior.raises "boom", 5, none, none, 10, 0, none⟩],
       [⟨"t", false, none, some "boom"⟩]) ∧
    TaskScheduler.should_run 10 "autonomous"
        ⟨"t", TaskScheduler.FuncBehavior.raises "boom", 5, none, none, 0, 0, none⟩ = true := by
  have hs : TaskScheduler.should_run 10 "autonomous"
      ⟨"t", TaskScheduler.FuncBehavior.raises "boom", 5, none, none, 0, 0, none⟩ = true := by
    simp [TaskScheduler.should_run, TaskScheduler.is_due]
    norm_num
  refine ⟨?_, hs⟩
  simp [TaskScheduler.run_due_tasks, hs, TaskScheduler.runUpdate, TaskScheduler.runRecord]

/-- Helper: run_due_tasks preserves the number of tasks. -/
theorem run_due_tasks_length (now : Rat) (mode : String)
    (ts : List TaskScheduler.PeriodicTask) :
    (TaskScheduler.run_due_tasks now mode ts).1.length = ts.length := by
  induction ts with
  | nil => rfl
  | cons t ts ih =>
    simp only [TaskScheduler.run_due_tasks]
    split_ifs <;> simp [ih]

/-- Helper: the records returned by run_due_tasks are exactly one record per
task that should run, in task order. -/
theorem run_due_tasks_records (now : Rat) (mode : String)
    (ts : List TaskScheduler.PeriodicTask) :
    (TaskScheduler.run_due_tasks now mode ts).2 =
      (ts.filter (TaskScheduler.should_run now mode)).map TaskScheduler.runRecord := by
  induction ts with
  | nil => rfl
  | cons t ts ih =>
    simp only [TaskScheduler.run_due_tasks, List.filter_cons]
    by_cases hs : TaskScheduler.should_run now mode t = true
    · simp [hs, ih]
    · simp [hs, ih]

/-- Helper: the i-th task after run_due_tasks is the i-th input task,
updated exactly when it should run. -/
theorem run_due_tasks_get (now : Rat) (mode : String)
    (ts : List TaskScheduler.PeriodicTask) (i : Nat) (h : i < ts.length) :
    (TaskScheduler.run_due_tasks now mode ts).1[i]? =
      some (if TaskScheduler.should_run now mode ts[i] = true
            then TaskScheduler.runUpdate now ts[i] else ts[i]) := by
  induction ts generalizing i with
  | nil => simp at h
  | cons t ts ih =>
    cases i with
    | zero =>
      simp only [TaskScheduler.run_due_tasks]
      split_ifs with hs <;> simp_all
    | succ n =>
      have hn : n < ts.length := by simpa using h
      simp only [TaskScheduler.run_due_tasks, List.getElem_cons_succ]
      split_ifs <;> simp_all [List.getElem?_cons_succ, ih n hn]

/-- C5 (amended): run_due_tasks runs exactly the tasks for which should_run
holds (due, mode allowed, condition true), returning one record per run
task with its name, success flag and result or error; a run task whose
function returns normally gets last_run, run_count and last_result updated;
a run task whose function raises gets only last_run updated (run_count and
last_result unchanged); tasks that do not run are left unchanged. -/
theorem C5_run_due_tasks_updates (now : Rat) (mode : String)
    (tasks : List TaskScheduler.PeriodicTask) (i : Nat) (h : i < tasks.length) :
    (TaskScheduler.run_due_tasks now mode tasks).1.length = tasks.length ∧
    (TaskScheduler.run_due_tasks now mode tasks).2 =
      (tasks.filter (TaskScheduler.should_run now mode)).map TaskScheduler.runRecord ∧
    (TaskScheduler.run_due_tasks now mode tasks).1[i]? =
      some (if TaskScheduler.should_run now mode tasks[i] = true
            then TaskScheduler.runUpdate now tasks[i] else tasks[i]) ∧
    (∀ v, tasks[i].func = TaskScheduler.FuncBehavior.returns v →
        TaskScheduler.runUpdate now tasks[i] =
          { tasks[i] with
              last_run := now,
              run_count := tasks[i].run_count + 1,
              last_result := some v }) ∧
    (∀ e, tasks[i].func = TaskScheduler.FuncBehavior.raises e →
        TaskScheduler.runUpdate now tasks[i] = { tasks[i] with last_run := now }) := by
  refine ⟨run_due_tasks_length now mode tasks, run_due_tasks_records now mode tasks,
    run_due_tasks_get now mode tasks i h, ?_, ?_⟩
  · intro v hv
    simp [TaskScheduler.runUpdate, hv]
  · intro e he
    simp [TaskScheduler.runUpdate, he]

/-- Witness for C5 (amended) on a two-task list whose second task raises. -/
theorem C5_run_due_tasks_updates_witness :
    1 < ([TaskScheduler.demoTaskOk, TaskScheduler.demoTaskErr]).length ∧
    ((TaskScheduler.run_due_tasks 10 "autonomous"
        [TaskScheduler.demoTaskOk, TaskScheduler.demoTaskErr]).1.length =
      ([TaskScheduler.demoTaskOk, TaskScheduler.demoTaskErr]).length ∧
    (TaskScheduler.run_due_tasks 10 "autonomous"
        [TaskScheduler.demoTaskOk, TaskScheduler.demoTaskErr]).2 =
      (([TaskScheduler.demoTaskOk, TaskScheduler.demoTaskErr]).filter
          (TaskScheduler.should_run 10 "autonomous")).map TaskScheduler.runRecord ∧
    (TaskScheduler.run_due_tasks 10 "autonomous"
        [TaskScheduler.demoTaskOk, TaskScheduler.demoTaskErr]).1[1]? =
      some (if TaskScheduler.should_run 10 "autonomous" TaskScheduler.demoTaskErr = true
            then TaskScheduler.runUpdate 10 TaskScheduler.demoTaskErr
            else TaskScheduler.demoTaskErr) ∧
    (∀ v, TaskScheduler.demoTaskErr.func = TaskScheduler.FuncBehavior.returns v →
        TaskScheduler.runUpdate 10 TaskScheduler.demoTaskErr =
          { TaskScheduler.demoTaskErr with
              last_run := 10,
              run_count := TaskScheduler.demoTaskErr.run_count + 1,
              last_result := some v }) ∧
    (∀ e, TaskScheduler.demoTaskErr.func = TaskScheduler.FuncBehavior.raises e →
        TaskScheduler.runUpdate 10 TaskScheduler.demoTaskErr =
          { TaskScheduler.demoTaskErr with last_run := 10 })) :=
  ⟨by decide,
   C5_run_due_tasks_updates 10 "autonomous"
     [TaskScheduler.demoTaskOk, TaskScheduler.demoTaskErr] 1 (by decide)⟩

/-- C9 counterexample: with now = 100 and days = 10, a regular, non-excluded
file whose atime is exactly 90 (so now - atime = days exactly) is omitted by
find_old_files, although it neither has now - atime < days nor matches an
exclude pattern; the completeness half of the claim is false at this
input. -/
theorem C9_boundary_file_counterexample :
    StorageManager.find_old_files (fun _ _ => false) StorageManager.DEFAULT_EXCLUDE_PATTERNS
        100 10 [⟨"/home/pi/autonomous_ai/data.bin", true, 90⟩] = [] ∧
    StorageManager.should_exclude (fun _ _ => false) StorageManager.DEFAULT_EXCLUDE_PATTERNS
        "/home/pi/autonomous_ai/data.bin" = false ∧
    (10 : Rat) ≤ 100 - 90 ∧ ¬((100 : Rat) - 90 < 10) := by
  refine ⟨?_, ?_, by norm_num, by norm_num⟩
  · simp [StorageManager.find_old_files, StorageManager.should_exclude,
      StorageManager.DEFAULT_EXCLUDE_PATTERNS]
    norm_num
  · simp [StorageManager.should_exclude, StorageManager.DEFAULT_EXCLUDE_PATTERNS]

/-- C9 (amended): a path is returned by find_old_files exactly when some
walked entry has that path, is a regular file, matches no exclude pattern
and is strictly more than days old (now - atime > days); equivalently,
every omitted regular file has now - atime ≤ days or matches an exclude
pattern. -/
theorem C9_find_old_files_membership (matchFn : String → String → Bool)
    (patterns : List String) (now days : Rat) (entries : List StorageManager.FsEntry)
    (p : String) :
    p ∈ StorageManager.find_old_files matchFn patterns now days entries ↔
      ∃ e ∈ entries, e.path = p ∧ e.is_file = true ∧
        StorageManager.should_exclude matchFn patterns e.path = false ∧
        days < now - e.atime := by
  simp only [StorageManager.find_old_files, List.mem_map, List.mem_filter]
  constructor
  · rintro ⟨e, ⟨he, hp⟩, rfl⟩
    simp only [Bool.and_eq_true, Bool.not_eq_true', decide_eq_true_eq] at hp
    obtain ⟨⟨h1, h2⟩, h3⟩ := hp
    exact ⟨e, he, rfl, h1, h2, by linarith⟩
  · rintro ⟨e, he, rfl, h1, h2, h3⟩
    refine ⟨e, ⟨he, ?_⟩, rfl⟩
    simp only [Bool.and_eq_true, Bool.not_eq_true', decide_eq_true_eq]
    exact ⟨⟨h1, h2⟩, by linarith⟩

/-- Helper: the key order is reflexive. -/
theorem keyLe_refl (a : AudioManager.QEntry) : AudioManager.keyLe a a = true := by
  simp [AudioManager.keyLe]

/-- Helper: the key order is total. -/
theorem keyLe_total (a b : AudioManager.QEntry) :
    AudioManager.keyLe a b = true ∨ AudioManager.keyLe b a = true := by
  rcases Nat.lt_trichotomy a.prio b.prio with h | h | h
  · left; simp [AudioManager.keyLe, h]
  · rcases le_total a.ts b.ts with ht | ht
    · left; simp [AudioManager.keyLe, h, ht]
    · right; simp [AudioManager.keyLe, h, ht]
  · right; simp [AudioManager.keyLe, h]

/-- Helper: the key order is transitive. -/
theorem keyLe_trans (a b c : AudioManager.QEntry) :
    AudioManager.keyLe a b = true → AudioManager.keyLe b c = true →
    AudioManager.keyLe a c = true := by
  simp only [AudioManager.keyLe, Bool.or_eq_true, Bool.and_eq_true, beq_iff_eq,
    decide_eq_true_eq]
  rintro (h1 | ⟨h1, h1t⟩) (h2 | ⟨h2, h2t⟩)
  · exact Or.inl (Nat.lt_trans h1 h2)
  · exact Or.inl (h2 ▸ h1)
  · exact Or.inl (h1 ▸ h2)
  · exact Or.inr ⟨h1.trans h2, h1t.trans h2t⟩

/-- Helper: selMin keeps the number of remaining entries. -/
theorem selMin_length (m : AudioManager.QEntry) (l : List AudioManager.QEntry) :
    (AudioManager.selMin m l).2.length = l.length := by
  induction l generalizing m with
  | nil => rfl
  | cons x xs ih =>
    simp only [AudioManager.selMin]
    split_ifs <;> simp [ih]

/-- Helper: the selected entry together with the remainder is a permutation
of the input. -/
theorem selMin_perm (m : AudioManager.QEntry) (l : List AudioManager.QEntry) :
    List.Perm ((AudioManager.selMin m l).1 :: (AudioManager.selMin m l).2) (m :: l) := by
  induction l generalizing m with
  | nil => exact List.Perm.refl _
  | cons x xs ih =>
    simp only [AudioManager.selMin]
    split_ifs with h
    · exact (List.Perm.swap _ _ _).trans (((ih m).cons x).trans (List.Perm.swap _ _ _))
    · exact (List.Perm.swap _ _ _).trans ((ih x).cons m)

/-- Helper: the selected entry is below the seed under the key order. -/
theorem selMin_fst_le (m : AudioManager.QEntry) (l : List AudioManager.QEntry) :
    AudioManager.keyLe (AudioManager.selMin m l).1 m = true := by
  induction l generalizing m with
  | nil => exact keyLe_refl m
  | cons x xs ih =>
    simp only [AudioManager.selMin]
    split_ifs with h
    · exact ih m
    · have hx : AudioManager.keyLe x m = true := (keyLe_total m x).resolve_left h
      exact keyLe_trans _ _ _ (ih x) hx

/-- Helper: the selected entry is below every remaining entry. -/
theorem selMin_fst_le_rest (m : AudioManager.QEntry) (l : List AudioManager.QEntry) :
    ∀ y ∈ (AudioManager.selMin m l).2,
      AudioManager.keyLe (AudioManager.selMin m l).1 y = true := by
  induction l generalizing m with
  | nil => intro y hy; simp [AudioManager.selMin] at hy
  | cons x xs ih =>
    intro y hy
    by_cases h : AudioManager.keyLe m x = true
    · simp only [AudioManager.selMin, if_pos h] at hy ⊢
      rcases List.mem_cons.1 hy with rfl | hy2
      · exact keyLe_trans _ _ _ (selMin_fst_le m xs) h
      · exact ih m y hy2
    · simp only [AudioManager.selMin, if_neg h] at hy ⊢
      rcases List.mem_cons.1 hy with rfl | hy2
      · have hx : AudioManager.keyLe x y = true := (keyLe_total y x).resolve_left h
        exact keyLe_trans _ _ _ (selMin_fst_le x xs) hx
      · exact ih x y hy2

/-- Helper: with enough fuel, draining is a permutation of the queue. -/
theorem drainFuel_perm : ∀ (n : Nat) (q : List AudioManager.QEntry), q.length ≤ n →
    List.Perm (AudioManager.drainFuel n q) q := by
  intro n
  induction n with
  | zero =>
    intro q hq
    have hnil : q = [] := List.eq_nil_of_length_eq_zero (Nat.le_zero.mp hq)
    subst hnil
    exact List.Perm.refl _
  | succ n ih =>
    intro q hq
    cases q with
    | nil => exact List.Perm.refl _
    | cons x xs =>
      simp only [AudioManager.drainFuel]
      have hlen : (AudioManager.selMin x xs).2.length ≤ n := by
        rw [selMin_length]
        simp only [List.length_cons] at hq
        omega
      exact ((ih _ hlen).cons _).trans (selMin_perm x xs)

/-- Helper: with enough fuel, the drained sequence is sorted under the key
order. -/
theorem drainFuel_sorted : ∀ (n : Nat) (q : List AudioManager.QEntry), q.length ≤ n →
    List.Pairwise (fun a b => AudioManager.keyLe a b = true)
      (AudioManager.drainFuel n q) := by
  intro n
  induction n with
  | zero => intro q hq; simp [AudioManager.drainFuel]
  | succ n ih =>
    intro q hq
    cases q with
    | nil => simp [AudioManager.drainFuel]
    | cons x xs =>
      simp only [AudioManager.drainFuel]
      have hlen : (AudioManager.selMin x xs).2.length ≤ n := by
        rw [selMin_length]
        simp only [List.length_cons] at hq
        omega
      refine List.Pairwise.cons ?_ (ih _ hlen)
      intro y hy
      exact selMin_fst_le_rest x xs y ((drainFuel_perm n _ hlen).mem_iff.mp hy)

/-- C6: if request A is in the speak queue with an earlier enqueue time than
B and a priority value at most B's, then the worker dequeues A strictly
before B: the drain order lists A at a smaller index than B. -/
theorem C6_speak_dequeue_order (q : List AudioManager.QEntry)
    (A B : AudioManager.QEntry)
    (hA : A ∈ q) (hB : B ∈ q) (hts : A.ts < B.ts) (hp : A.prio ≤ B.prio) :
    ∃ i j : Nat, i < j ∧ (AudioManager.drain q)[i]? = some A ∧
      (AudioManager.drain q)[j]? = some B := by
  have hperm : List.Perm (AudioManager.drain q) q :=
    drainFuel_perm q.length q (le_refl _)
  have hsorted : List.Pairwise (fun a b => AudioManager.keyLe a b = true)
      (AudioManager.drain q) := drainFuel_sorted q.length q (le_refl _)
  have hA' : A ∈ AudioManager.drain q := hperm.mem_iff.mpr hA
  have hB' : B ∈ AudioManager.drain q := hperm.mem_iff.mpr hB
  obtain ⟨i, hilt, hgi⟩ := List.mem_iff_getElem.mp hA'
  obtain ⟨j, hjlt, hgj⟩ := List.mem_iff_getElem.mp hB'
  have hne : A ≠ B := fun he => absurd hts (by rw [he]; exact lt_irrefl _)
  have hij : i ≠ j := by
    intro he
    subst he
    rw [hgi] at hgj
    exact hne hgj
  have notBA : ¬ AudioManager.keyLe B A = true := by
    simp only [AudioManager.keyLe, Bool.or_eq_true, Bool.and_eq_true, beq_iff_eq,
      decide_eq_true_eq]
    rintro (hcon | ⟨hcon, hcont⟩)
    · omega
    · exact absurd hcont (by simp; linarith)
  have hlt : i < j := by
    rcases Nat.lt_trichotomy i j with h | h | h
    · exact h
    · exact absurd h hij
    · exfalso
      have hp2 := List.pairwise_iff_getElem.mp hsorted j i hjlt hilt h
      rw [hgi, hgj] at hp2
      exact notBA hp2
  exact ⟨i, j, hlt, by rw [List.getElem?_eq_getElem hilt, hgi],
    by rw [List.getElem?_eq_getElem hjlt, hgj]⟩

/-- Witness for C6 on a three-request queue: two notifications in enqueue
order plus a later talk request. -/
theorem C6_speak_dequeue_order_witness :
    ∃ i j : Nat, i < j ∧
      (AudioManager.drain [⟨3, 1, "one"⟩, ⟨3, 2, "two"⟩, ⟨1, 3, "talk"⟩])[i]? =
        some ⟨3, 1, "one"⟩ ∧
      (AudioManager.drain [⟨3, 1, "one"⟩, ⟨3, 2, "two"⟩, ⟨1, 3, "talk"⟩])[j]? =
        some ⟨3, 2, "two"⟩ :=
  C6_speak_dequeue_order [⟨3, 1, "one"⟩, ⟨3, 2, "two"⟩, ⟨1, 3, "talk"⟩]
    ⟨3, 1, "one"⟩ ⟨3, 2, "two"⟩ (by simp) (by simp) (by norm_num) (by norm_num)

/-- C1: for any command whose argv (as split by shlex) has a path-sensitive
basename and contains a path-like argument that does not resolve under the
allow-list roots, execute rejects it: success = false with returncode -1
and an error message, no child process is spawned, and exactly one audit
record is appended with allowed = false.  This holds for every model of the
library primitives (regex search, shlex, path resolution). -/
theorem C1_executor_rejects_outside_allowlist (lib : Executor.PyLib)
    (proc : List String → Executor.ProcOutcome) (tmo mx : Nat)
    (command : String) (args : List String) (p : String)
    (hsplit : lib.shlexSplit command = some args)
    (hbase : Executor.PATH_SENSITIVE.contains (Executor.pyName (args.headD "")) = true)
    (hp : p ∈ Executor.extract_pathlike_args args)
    (hout : Executor.is_under_allowed_roots lib p = false) :
    (Executor.execute lib proc tmo mx command).1.success = false ∧
    (Executor.execute lib proc tmo mx command).1.returncode = -1 ∧
    (Executor.execute lib proc tmo mx command).1.error.isSome = true ∧
    (Executor.execute lib proc tmo mx command).2.2 = [] ∧
    ∃ rec, (Executor.execute lib proc tmo mx command).2.1 = [rec] ∧
      rec.allowed = false := by
  have hunsafe : (Executor.is_safe_command lib command).1 = false := by
    by_contra hcon
    rw [Bool.not_eq_false] at hcon
    simp only [Executor.is_safe_command, hsplit] at hcon
    by_cases h1 : Executor.empty_command command = true
    · rw [if_pos h1] at hcon; exact absurd hcon (by simp)
    rw [if_neg h1] at hcon
    by_cases h2 : lib.dangerousHit command = true
    · rw [if_pos h2] at hcon; exact absurd hcon (by simp)
    rw [if_neg h2] at hcon
    by_cases h3 : Executor.has_shell_ops command = true
    · rw [if_pos h3] at hcon; exact absurd hcon (by simp)
    rw [if_neg h3] at hcon
    by_cases h4 : args.isEmpty = true
    · rw [if_pos h4] at hcon; exact absurd hcon (by simp)
    rw [if_neg h4] at hcon
    by_cases h5 : Executor.pyName (args.headD "") = "sudo"
    · rw [if_pos h5] at hcon; exact absurd hcon (by simp)
    rw [if_neg h5] at hcon
    by_cases h6 : (!Executor.ALLOWED_COMMANDS.contains (Executor.pyName (args.headD ""))) = true
    · rw [if_pos h6] at hcon; exact absurd hcon (by simp)
    rw [if_neg h6] at hcon
    by_cases h7 : Executor.systemctl_arity_bad (Executor.pyName (args.headD "")) args = true
    · rw [if_pos h7] at hcon; exact absurd hcon (by simp)
    rw [if_neg h7] at hcon
    by_cases h8 : Executor.systemctl_action_bad (Executor.pyName (args.headD "")) args = true
    · rw [if_pos h8] at hcon; exact absurd hcon (by simp)
    rw [if_neg h8] at hcon
    by_cases h9 : Executor.path_violation lib (Executor.pyName (args.headD "")) args = true
    · rw [if_pos h9] at hcon; exact absurd hcon (by simp)
    · exact h9 (by
        simp only [Executor.path_violation, Bool.and_eq_true, List.any_eq_true]
        exact ⟨hbase, p, hp, by simp [hout]⟩)
  refine ⟨by simp [Executor.execute, hunsafe], by simp [Executor.execute, hunsafe],
    by simp [Executor.execute, hunsafe], by simp [Executor.execute, hunsafe], ?_⟩
  refine ⟨⟨command, none, false, none,
    some ((Executor.is_safe_command lib command).2.1), none⟩, ?_, rfl⟩
  simp [Executor.execute, hunsafe]

/-- Witness for C1 on the spec example command: rm with a path that resolves
to /etc, outside every allow-list root. -/
theorem C1_executor_rejects_outside_allowlist_witness :
    Executor.demoLib.shlexSplit "rm -rf /home/pi/autonomous_ai/../etc" =
      some ["rm", "-rf", "/home/pi/autonomous_ai/../etc"] ∧
    Executor.PATH_SENSITIVE.contains
      (Executor.pyName ((["rm", "-rf", "/home/pi/autonomous_ai/../etc"]).headD "")) = true ∧
    "/home/pi/autonomous_ai/../etc" ∈
      Executor.extract_pathlike_args ["rm", "-rf", "/home/pi/autonomous_ai/../etc"] ∧
    Executor.is_under_allowed_roots Executor.demoLib "/home/pi/autonomous_ai/../etc" = false ∧
    ((Executor.execute Executor.demoLib Executor.demoProc 30 10000
        "rm -rf /home/pi/autonomous_ai/../etc").1.success = false ∧
    (Executor.execute Executor.demoLib Executor.demoProc 30 10000
        "rm -rf /home/pi/autonomous_ai/../etc").1.returncode = -1 ∧
    (Executor.execute Executor.demoLib Executor.demoProc 30 10000
        "rm -rf /home/pi/autonomous_ai/../etc").1.error.isSome = true ∧
    (Executor.execute Executor.demoLib Executor.demoProc 30 10000
        "rm -rf /home/pi/autonomous_ai/../etc").2.2 = [] ∧
    ∃ rec, (Executor.execute Executor.demoLib Executor.demoProc 30 10000
        "rm -rf /home/pi/autonomous_ai/../etc").2.1 = [rec] ∧
      rec.allowed = false) :=
  ⟨by decide, by decide, by decide, by decide,
   C1_executor_rejects_outside_allowlist Executor.demoLib Executor.demoProc 30 10000
     "rm -rf /home/pi/autonomous_ai/../etc" ["rm", "-rf", "/home/pi/autonomous_ai/../etc"]
     "/home/pi/autonomous_ai/../etc" (by decide) (by decide) (by decide) (by decide)⟩
